import Mathlib

/-!
Verification of the balance/alert reconciliation core of an equipment
logistics back-office service.

The embedding below translates, into Lean, the parts of the source that the
properties under study depend on:

* `src/src/services/balance_service.py` — `BalanceService.update_customer_balance`,
  `BalanceService._create_alert` (written `createAlert` here, Lean identifiers
  may not begin with an underscore), `BalanceService._calculate_priority`
  (written `calculatePriority`);
* `src/src/api/main.py` — the `update_threshold` endpoint
  (`PUT /customers/.../thresholds/...`) and the storing part of the
  `upload_photo` endpoint;
* `src/src/services/ai_service.py` — `AIService.extract_equipment_from_image`,
  whose outbound network call and response parsing are abstracted as an
  `ExtractOutcome` (either parsed movements or a raised exception message: the
  whole Python body sits under one `try`/`except Exception`);
* `src/src/models/database.py` and `src/src/models/schemas.py` — record shapes
  and column defaults;
* `src/src/config.py` — `DEFAULT_THRESHOLD` (20) and
  `HIGH_PRIORITY_MULTIPLIER` (1.5, exactly the rational 3/2).

Conventions of the embedding: the SQLAlchemy session becomes explicit state
passing over `DBState` (the `customer_balances` and `alerts` tables as lists
of rows in insertion order; `query(...).filter(...).first()` becomes
`List.find?`, in-place mutation of a fetched row becomes replacement of the
first matching row); Python `int` becomes `Int`; Python `float` fields that
the logic compares (`HIGH_PRIORITY_MULTIPLIER`, `confidence_score`) become
`ℚ` (all values involved are exactly representable); `datetime` values become
an opaque `Nat` tick; Python exceptions become the `Except` error channel.
String-valued enum columns (`status`, `priority`, `direction`) keep their
string values, except `direction`, which arrives at the service already
parsed into the two-valued `Direction` str-enum of `schemas.py`.
-/

namespace EquipmentTracker

/-- Direction of an equipment movement; the two-valued str enum `Direction`
of `models/schemas.py` (values "in" and "out"). -/
inductive Direction where
  | IN : Direction
  | OUT : Direction
  deriving DecidableEq, Repr

/-- Config value `settings.DEFAULT_THRESHOLD` from `config.py` (default 20,
env-overridable; modelled at its default). -/
def DEFAULT_THRESHOLD : Int := 20

/-- Config value `settings.HIGH_PRIORITY_MULTIPLIER` from `config.py`
(default 1.5; the float 1.5 is exactly the rational 3/2). -/
def HIGH_PRIORITY_MULTIPLIER : ℚ := 3 / 2

/-- An equipment movement, as the `EquipmentMovement` schema of
`models/schemas.py` restricted to the fields the reconciler and the upload
path read (the optional equipment-spec decoration fields are never read by
the code under study). -/
structure Movement where
  movement_id : String
  customer_name : String
  equipment_type : String
  quantity : Int
  direction : Direction
  timestamp : Nat
  driver_name : Option String
  confidence_score : ℚ
  notes : Option String
  verified : Bool
  deriving DecidableEq, Repr

/-- A row of the `customer_balances` table (`models/database.py`); the `id`
uuid column is never read by the logic and is omitted. -/
structure CustomerBalance where
  customer_name : String
  equipment_type : String
  current_balance : Int
  threshold : Int
  last_movement : Nat
  status : String
  deriving DecidableEq, Repr

/-- A row of the `alerts` table (`models/database.py`); the `id` uuid column
is never read by the logic and is omitted. -/
structure Alert where
  customer_name : String
  equipment_type : String
  current_balance : Int
  threshold : Int
  excess : Int
  priority : String
  created_at : Nat
  resolved : Bool
  deriving DecidableEq, Repr

/-- The database state the reconciler touches: the `customer_balances` and
`alerts` tables, as lists of rows in insertion order. -/
structure DBState where
  balances : List CustomerBalance
  alerts : List Alert
  deriving DecidableEq, Repr

/-- The empty database. -/
def emptyDB : DBState := { balances := [], alerts := [] }

/-- Row filter of the balance queries: both `update_customer_balance` and
`update_threshold` filter `customer_balances` on equality of
`customer_name` and `equipment_type`. -/
def balKey (c e : String) (b : CustomerBalance) : Bool :=
  b.customer_name == c && b.equipment_type == e

/-- The `query(CustomerBalance).filter(...).first()` lookup. -/
def findBalance (c e : String) (l : List CustomerBalance) : Option CustomerBalance :=
  l.find? (balKey c e)

/-- Writing a balance row back: the Python code mutates the fetched row in
place (keeping its position) or `db.add`s a fresh one; over a list of rows
this replaces the first row with the written row's key, else appends. -/
def putBalance (b : CustomerBalance) : List CustomerBalance → List CustomerBalance
  | [] => [b]
  | x :: xs =>
    if balKey b.customer_name b.equipment_type x then b :: xs
    else x :: putBalance b xs

/-- Row filter of the alert query in `_create_alert`: same
(customer_name, equipment_type) and `resolved == False`. -/
def unresolvedFor (c e : String) (a : Alert) : Bool :=
  a.customer_name == c && a.equipment_type == e && a.resolved == false

/-- `BalanceService._calculate_priority`: "high" when
`current_balance > threshold * settings.HIGH_PRIORITY_MULTIPLIER`, else
"medium" (the comparison is int > int * float in Python; exact over ℚ). -/
def calculatePriority (b : CustomerBalance) : String :=
  if (b.current_balance : ℚ) > (b.threshold : ℚ) * HIGH_PRIORITY_MULTIPLIER then
    "high"
  else
    "medium"

/-- The in-place update branch of `_create_alert`: only `current_balance`,
`excess` and `priority` of the existing unresolved alert are assigned. -/
def updateExistingAlert (b : CustomerBalance) (a : Alert) : Alert :=
  { a with
    current_balance := b.current_balance
    excess := max 0 (b.current_balance - b.threshold)
    priority := calculatePriority b }

/-- The creation branch of `_create_alert`: a fresh `Alert` row; columns
`created_at` and `resolved` take their `database.py` defaults
(`datetime.utcnow` — the current tick — and `False`). -/
def newAlert (b : CustomerBalance) (now : Nat) : Alert :=
  { customer_name := b.customer_name
    equipment_type := b.equipment_type
    current_balance := b.current_balance
    threshold := b.threshold
    excess := max 0 (b.current_balance - b.threshold)
    priority := calculatePriority b
    created_at := now
    resolved := false }

/-- `BalanceService._create_alert` (the spec calls it `upsert_alert`): fetch
the first unresolved alert for the balance's pair; update it in place when
found, else add a fresh alert. -/
def createAlert (b : CustomerBalance) (now : Nat) : List Alert → List Alert
  | [] => [newAlert b now]
  | a :: rest =>
    if unresolvedFor b.customer_name b.equipment_type a then
      updateExistingAlert b a :: rest
    else
      a :: createAlert b now rest

/-- Error channel of the service layer: the error classes the specification
names. `update_threshold` raises an HTTP 404 (`notFoundError` here);
`update_customer_balance` contains no raise site at all. -/
inductive ServiceError where
  | validationError : ServiceError
  | notFoundError : ServiceError
  deriving DecidableEq, Repr

/-- The freshly created balance row of `update_customer_balance`:
`current_balance=0`, `threshold=settings.DEFAULT_THRESHOLD`,
`last_movement=movement.timestamp`, `status="normal"`. -/
def newBalanceRow (m : Movement) : CustomerBalance :=
  { customer_name := m.customer_name
    equipment_type := m.equipment_type
    current_balance := 0
    threshold := DEFAULT_THRESHOLD
    last_movement := m.timestamp
    status := "normal" }

/-- `BalanceService.update_customer_balance`: find or create the balance row
for the movement's pair, add the quantity when `direction == Direction.IN`
and subtract it otherwise, stamp `last_movement`, recompute `status` by the
if/elif/else of lines 46-53, and call `_create_alert` in the two breach
branches.  The function body raises no exception, so every path returns
`Except.ok`. -/
def updateCustomerBalance (m : Movement) (now : Nat) (s : DBState) :
    Except ServiceError DBState :=
  let b0 := (findBalance m.customer_name m.equipment_type s.balances).getD (newBalanceRow m)
  let cb : Int :=
    if m.direction = Direction.IN then b0.current_balance + m.quantity
    else b0.current_balance - m.quantity
  if cb > b0.threshold then
    let b1 : CustomerBalance :=
      { b0 with current_balance := cb, last_movement := m.timestamp, status := "over_threshold" }
    Except.ok { balances := putBalance b1 s.balances, alerts := createAlert b1 now s.alerts }
  else if cb < 0 then
    let b1 : CustomerBalance :=
      { b0 with current_balance := cb, last_movement := m.timestamp, status := "negative" }
    Except.ok { balances := putBalance b1 s.balances, alerts := createAlert b1 now s.alerts }
  else
    let b1 : CustomerBalance :=
      { b0 with current_balance := cb, last_movement := m.timestamp, status := "normal" }
    Except.ok { balances := putBalance b1 s.balances, alerts := s.alerts }

/-- One ledger step: apply a movement, keeping the previous state on the
(unreachable) error branch. -/
def applyOne (now : Nat) (s : DBState) (m : Movement) : DBState :=
  match updateCustomerBalance m now s with
  | Except.ok s1 => s1
  | Except.error _ => s

/-- A sequence of `update_customer_balance` calls, in order. -/
def applyMovements (now : Nat) (ms : List Movement) (s : DBState) : DBState :=
  ms.foldl (applyOne now) s

/-- The `update_threshold` endpoint of `api/main.py` (lines 298-339): 404
when no balance row exists for the pair; otherwise assign the new threshold,
recompute `status` against it (lines 323-329), commit.  Alerts are not
touched. -/
def updateThreshold (c e : String) (threshold : Int) (s : DBState) :
    Except ServiceError DBState :=
  match findBalance c e s.balances with
  | none => Except.error ServiceError.notFoundError
  | some b =>
    Except.ok
      { balances :=
          putBalance
            { b with
              threshold := threshold
              status :=
                if b.current_balance > threshold then "over_threshold"
                else if b.current_balance < 0 then "negative"
                else "normal" }
            s.balances
        alerts := s.alerts }

/-- The `ExtractionResult` schema of `models/schemas.py`. -/
structure ExtractionResult where
  success : Bool
  movements : List Movement
  raw_text : Option String
  error : Option String
  deriving DecidableEq, Repr

/-- Outcome of the outbound AI call and response parsing inside the `try`
block of `extract_equipment_from_image`: either a parsed movement list with
the raw response text, or an exception message (network failure, malformed
response, missing API key — every exception is caught by the single
`except Exception` handler). -/
inductive ExtractOutcome where
  | parsed (movements : List Movement) (raw : String) : ExtractOutcome
  | exn (msg : String) : ExtractOutcome
  deriving DecidableEq, Repr

/-- Substring test on character lists (Python's `in` on strings). -/
def containsChars (pat : List Char) : List Char → Bool
  | [] => pat.isEmpty
  | c :: cs => pat.isPrefixOf (c :: cs) || containsChars pat cs

/-- Marker text checked by the handler of `extract_equipment_from_image`. -/
def couldNotProcessMsg : String := "Could not process image"

/-- Second marker text checked by the same handler. -/
def invalidRequestMsg : String := "invalid_request_error"

/-- The fixed guidance text the handler substitutes for the two marker
errors (abbreviated; its content is never branched on). -/
def imageHelpMsg : String := "The image could not be processed by AI."

/-- The error-message munging of the `except` handler of
`extract_equipment_from_image` (lines 150-155). -/
def friendlyMessage (msg : String) : String :=
  if containsChars couldNotProcessMsg.data msg.data
      || containsChars invalidRequestMsg.data msg.data then
    imageHelpMsg
  else
    "AI processing error: " ++ msg

/-- `AIService.extract_equipment_from_image` after abstracting the network
call: on success an `ExtractionResult(success=True, movements, raw_text)`;
on any exception (lines 149-162) an
`ExtractionResult(success=False, movements=[], error=..., raw_text=...)` —
the exception is swallowed, never re-raised. -/
def extractEquipmentFromImage : ExtractOutcome → ExtractionResult
  | ExtractOutcome.parsed ms raw =>
    { success := true, movements := ms, raw_text := some raw, error := none }
  | ExtractOutcome.exn msg =>
    { success := false, movements := [], raw_text := some msg,
      error := some (friendlyMessage msg) }

/-- State touched by the `upload_photo` endpoint: the `equipment_movements`
table (the ledger) plus the reconciler's state. -/
structure UploadState where
  ledger : List Movement
  db : DBState
  deriving DecidableEq, Repr

/-- The empty upload state. -/
def emptyUpload : UploadState := { ledger := [], db := emptyDB }

/-- The storing part of the `upload_photo` endpoint (`api/main.py` lines
96-120): only `if result.success:` are the extracted movements written to
the ledger and pushed through `update_customer_balance`; otherwise the
result is returned with no write at all. -/
def uploadPhoto (result : ExtractionResult) (now : Nat) (s : UploadState) : UploadState :=
  if result.success then
    { ledger := s.ledger ++ result.movements
      db := applyMovements now result.movements s.db }
  else s

/-- Specification-side signed quantity: `in:+quantity, out:-quantity`. -/
def signedQty (m : Movement) : Int :=
  if m.direction = Direction.IN then m.quantity else -m.quantity

/-- Specification-side signed sum of all movement quantities for one
(customer, equipment_type) pair:
`Σ(in movements.quantity) − Σ(out movements.quantity)`. -/
def specSignedSum (c e : String) (ms : List Movement) : Int :=
  ((ms.filter fun m => m.customer_name == c && m.equipment_type == e).map signedQty).sum

/-- Specification-side status formula: `over_threshold` if
`current_balance > threshold`, else `negative` if `current_balance < 0`,
else `normal`. -/
def specStatus (cb th : Int) : String :=
  if cb > th then "over_threshold" else if cb < 0 then "negative" else "normal"

/-- The stored balance of a pair (0 when no row exists yet). -/
def balanceOf (c e : String) (s : DBState) : Int :=
  ((findBalance c e s.balances).map CustomerBalance.current_balance).getD 0

/-- The alert-table invariant of the specification: at most one unresolved
alert per (customer, equipment_type). -/
def alertInv (l : List Alert) : Prop :=
  ∀ c e, l.countP (unresolvedFor c e) ≤ 1

/-- A balance is breached when its pair is in one of the two alert-raising
branches of `update_customer_balance`. -/
def breached (b : CustomerBalance) : Prop :=
  b.threshold < b.current_balance ∨ b.current_balance < 0

/-! ### Supporting lemmas: balance-row lookup and write-back -/

lemma balKey_eq_iff (c e : String) (b : CustomerBalance) :
    balKey c e b = true ↔ b.customer_name = c ∧ b.equipment_type = e := by
  simp [balKey]

lemma balKey_self (b : CustomerBalance) :
    balKey b.customer_name b.equipment_type b = true := by
  simp [balKey]

lemma findBalance_putBalance_self (b : CustomerBalance) (l : List CustomerBalance) :
    findBalance b.customer_name b.equipment_type (putBalance b l) = some b := by
  induction l with
  | nil =>
    unfold putBalance findBalance
    rw [List.find?_cons_of_pos _ (balKey_self b)]
  | cons x xs ih =>
    unfold putBalance
    by_cases hx : balKey b.customer_name b.equipment_type x = true
    · rw [if_pos hx]
      unfold findBalance
      rw [List.find?_cons_of_pos _ (balKey_self b)]
    · rw [if_neg hx]
      unfold findBalance at ih ⊢
      rw [List.find?_cons_of_neg _ (by simpa using hx)]
      exact ih

lemma findBalance_putBalance_other (b : CustomerBalance) (l : List CustomerBalance)
    (c e : String) (h : balKey c e b = false) :
    findBalance c e (putBalance b l) = findBalance c e l := by
  induction l with
  | nil =>
    simp [putBalance, findBalance, List.find?_cons_of_neg, h]
  | cons x xs ih =>
    unfold putBalance
    by_cases hx : balKey b.customer_name b.equipment_type x = true
    · rw [if_pos hx]
      have hxc : x.customer_name = b.customer_name ∧ x.equipment_type = b.equipment_type := by
        simpa [balKey] using hx
      have hxf : balKey c e x = false := by
        simp only [balKey] at h ⊢
        rw [hxc.1, hxc.2]
        exact h
      unfold findBalance
      rw [List.find?_cons_of_neg _ (by simp [h]), List.find?_cons_of_neg _ (by simp [hxf])]
    · rw [if_neg hx]
      unfold findBalance at ih ⊢
      by_cases hcx : balKey c e x = true
      · rw [List.find?_cons_of_pos _ hcx, List.find?_cons_of_pos _ hcx]
      · rw [List.find?_cons_of_neg _ (by simpa using hcx),
          List.find?_cons_of_neg _ (by simpa using hcx)]
        exact ih

/-- Derived description of the balance row written by
`update_customer_balance`: the fetched-or-fresh row with the signed quantity
applied, the timestamp stamped and the status recomputed. -/
def stepRow (m : Movement) (s : DBState) : CustomerBalance :=
  let b0 := (findBalance m.customer_name m.equipment_type s.balances).getD (newBalanceRow m)
  let cb : Int :=
    if m.direction = Direction.IN then b0.current_balance + m.quantity
    else b0.current_balance - m.quantity
  { b0 with
    current_balance := cb
    last_movement := m.timestamp
    status := specStatus cb b0.threshold }

lemma stepRow_status (m : Movement) (s : DBState) :
    (stepRow m s).status = specStatus (stepRow m s).current_balance (stepRow m s).threshold := rfl

lemma stepRow_key (m : Movement) (s : DBState) :
    (stepRow m s).customer_name = m.customer_name ∧
      (stepRow m s).equipment_type = m.equipment_type := by
  unfold stepRow
  cases hfind : findBalance m.customer_name m.equipment_type s.balances with
  | none => simp [hfind, newBalanceRow]
  | some b0 =>
    have hb0 : balKey m.customer_name m.equipment_type b0 = true := List.find?_some hfind
    rw [balKey_eq_iff] at hb0
    simp [hfind, hb0.1, hb0.2]

lemma updateCustomerBalance_ok (m : Movement) (now : Nat) (s : DBState) :
    ∃ A, updateCustomerBalance m now s =
      Except.ok { balances := putBalance (stepRow m s) s.balances, alerts := A } := by
  simp only [updateCustomerBalance, stepRow, specStatus]
  split_ifs <;> exact ⟨_, rfl⟩

lemma applyOne_eq (now : Nat) (s : DBState) (m : Movement) :
    ∃ A, applyOne now s m =
      { balances := putBalance (stepRow m s) s.balances, alerts := A } := by
  obtain ⟨A, hA⟩ := updateCustomerBalance_ok m now s
  exact ⟨A, by rw [applyOne, hA]⟩

/-! ### Supporting lemmas: priority over ℚ versus integers -/

lemma priority_high_iff (b : CustomerBalance) :
    ((b.threshold : ℚ) * HIGH_PRIORITY_MULTIPLIER < (b.current_balance : ℚ)) ↔
      3 * b.threshold < 2 * b.current_balance := by
  unfold HIGH_PRIORITY_MULTIPLIER
  constructor
  · intro h
    have h2 : ((3 * b.threshold : Int) : ℚ) < ((2 * b.current_balance : Int) : ℚ) := by
      push_cast
      linarith
    exact_mod_cast h2
  · intro h
    have h2 : ((3 * b.threshold : Int) : ℚ) < ((2 * b.current_balance : Int) : ℚ) := by
      exact_mod_cast h
    push_cast at h2
    linarith

lemma calculatePriority_eq (b : CustomerBalance) :
    calculatePriority b =
      if 3 * b.threshold < 2 * b.current_balance then "high" else "medium" := by
  unfold calculatePriority
  split_ifs with h1 h2 h2
  · rfl
  · exact absurd ((priority_high_iff b).mp h1) h2
  · exact absurd ((priority_high_iff b).mpr h2) h1
  · rfl

/-! ### Supporting lemmas: the alert upsert -/

lemma unresolvedFor_update (c e : String) (b : CustomerBalance) (a : Alert) :
    unresolvedFor c e (updateExistingAlert b a) = unresolvedFor c e a := rfl

lemma unresolvedFor_newAlert_self (b : CustomerBalance) (now : Nat) :
    unresolvedFor b.customer_name b.equipment_type (newAlert b now) = true := by
  simp [unresolvedFor, newAlert]

lemma unresolvedFor_newAlert_other (b : CustomerBalance) (now : Nat) (c e : String)
    (h : ¬(c = b.customer_name ∧ e = b.equipment_type)) :
    unresolvedFor c e (newAlert b now) = false := by
  cases hu : unresolvedFor c e (newAlert b now) with
  | false => rfl
  | true =>
    exfalso
    simp [unresolvedFor, newAlert] at hu
    exact h ⟨hu.1.symm, hu.2.symm⟩

lemma unresolvedFor_spec (c e : String) (a : Alert) :
    unresolvedFor c e a = true ↔
      a.customer_name = c ∧ a.equipment_type = e ∧ a.resolved = false := by
  simp [unresolvedFor]
  tauto

lemma createAlert_nil (b : CustomerBalance) (now : Nat) :
    createAlert b now [] = [newAlert b now] := rfl

lemma createAlert_cons_pos (b : CustomerBalance) (now : Nat) (x : Alert) (t : List Alert)
    (hx : unresolvedFor b.customer_name b.equipment_type x = true) :
    createAlert b now (x :: t) = updateExistingAlert b x :: t := by
  simp only [createAlert]
  rw [if_pos hx]

lemma createAlert_cons_neg (b : CustomerBalance) (now : Nat) (x : Alert) (t : List Alert)
    (hx : ¬ unresolvedFor b.customer_name b.equipment_type x = true) :
    createAlert b now (x :: t) = x :: createAlert b now t := by
  simp only [createAlert]
  rw [if_neg hx]

lemma createAlert_of_not_found (b : CustomerBalance) (now : Nat) (l : List Alert)
    (h : ∀ a ∈ l, ¬ unresolvedFor b.customer_name b.equipment_type a = true) :
    createAlert b now l = l ++ [newAlert b now] := by
  induction l with
  | nil => rfl
  | cons x t ih =>
    unfold createAlert
    rw [if_neg (h x (List.mem_cons_self x t)),
      ih fun a ha => h a (List.mem_cons_of_mem x ha), List.cons_append]

lemma createAlert_of_found (b : CustomerBalance) (now : Nat) (l : List Alert) (a : Alert)
    (h : l.find? (unresolvedFor b.customer_name b.equipment_type) = some a) :
    (createAlert b now l).find? (unresolvedFor b.customer_name b.equipment_type) =
        some (updateExistingAlert b a) ∧
      (createAlert b now l).length = l.length := by
  induction l with
  | nil => exact absurd h (by simp)
  | cons x t ih =>
    by_cases hx : unresolvedFor b.customer_name b.equipment_type x = true
    · rw [List.find?_cons_of_pos _ hx] at h
      obtain rfl : x = a := by injection h
      unfold createAlert
      rw [if_pos hx]
      refine ⟨?_, by simp⟩
      rw [List.find?_cons_of_pos]
      rw [unresolvedFor_update]
      exact hx
    · rw [List.find?_cons_of_neg _ hx] at h
      obtain ⟨h1, h2⟩ := ih h
      unfold createAlert
      rw [if_neg hx]
      refine ⟨?_, by simp [h2]⟩
      rw [List.find?_cons_of_neg _ hx]
      exact h1

lemma countP_createAlert_other (b : CustomerBalance) (now : Nat) (l : List Alert)
    (c e : String) (h : ¬(c = b.customer_name ∧ e = b.equipment_type)) :
    (createAlert b now l).countP (unresolvedFor c e) = l.countP (unresolvedFor c e) := by
  induction l with
  | nil =>
    unfold createAlert
    rw [List.countP_cons, unresolvedFor_newAlert_other b now c e h]
    simp
  | cons x t ih =>
    by_cases hx : unresolvedFor b.customer_name b.equipment_type x = true
    · unfold createAlert
      rw [if_pos hx, List.countP_cons, List.countP_cons, unresolvedFor_update]
    · unfold createAlert
      rw [if_neg hx, List.countP_cons, List.countP_cons, ih]

lemma countP_createAlert_self (b : CustomerBalance) (now : Nat) (l : List Alert) :
    (createAlert b now l).countP (unresolvedFor b.customer_name b.equipment_type) =
      max 1 (l.countP (unresolvedFor b.customer_name b.equipment_type)) := by
  induction l with
  | nil =>
    unfold createAlert
    rw [List.countP_cons, unresolvedFor_newAlert_self]
    simp
  | cons x t ih =>
    by_cases hx : unresolvedFor b.customer_name b.equipment_type x = true
    · rw [createAlert_cons_pos b now x t hx, List.countP_cons, List.countP_cons,
        unresolvedFor_update, if_pos hx]
      omega
    · rw [createAlert_cons_neg b now x t hx, List.countP_cons, List.countP_cons, ih,
        if_neg hx]
      omega

lemma resolved_mem_createAlert (b : CustomerBalance) (now : Nat) (l : List Alert)
    (a : Alert) (ha : a ∈ l) (hr : a.resolved = true) :
    a ∈ createAlert b now l := by
  induction l with
  | nil => cases ha
  | cons x t ih =>
    by_cases hx : unresolvedFor b.customer_name b.equipment_type x = true
    · unfold createAlert
      rw [if_pos hx]
      rcases List.mem_cons.mp ha with rfl | hat
      · exfalso
        have hres : a.resolved = false := ((unresolvedFor_spec _ _ _).mp hx).2.2
        rw [hr] at hres
        cases hres
      · exact List.mem_cons_of_mem _ hat
    · unfold createAlert
      rw [if_neg hx]
      rcases List.mem_cons.mp ha with rfl | hat
      · exact List.mem_cons_self _ _
      · exact List.mem_cons_of_mem _ (ih hat)

lemma updateExistingAlert_idem (b : CustomerBalance) (a : Alert) :
    updateExistingAlert b (updateExistingAlert b a) = updateExistingAlert b a := rfl

lemma updateExistingAlert_newAlert (b : CustomerBalance) (now : Nat) :
    updateExistingAlert b (newAlert b now) = newAlert b now := rfl

lemma createAlert_idem (b : CustomerBalance) (now now2 : Nat) (l : List Alert) :
    createAlert b now2 (createAlert b now l) = createAlert b now l := by
  induction l with
  | nil =>
    rw [createAlert_nil,
      createAlert_cons_pos b now2 _ _ (unresolvedFor_newAlert_self b now),
      updateExistingAlert_newAlert]
  | cons x t ih =>
    by_cases hx : unresolvedFor b.customer_name b.equipment_type x = true
    · rw [createAlert_cons_pos b now x t hx,
        createAlert_cons_pos b now2 _ _ (by rw [unresolvedFor_update]; exact hx),
        updateExistingAlert_idem]
    · rw [createAlert_cons_neg b now x t hx,
        createAlert_cons_neg b now2 _ _ hx, ih]

/-! ### Supporting lemmas: the balance fold -/

lemma balanceOf_empty (c e : String) : balanceOf c e emptyDB = 0 := rfl

lemma specSignedSum_cons (c e : String) (m : Movement) (t : List Movement) :
    specSignedSum c e (m :: t) =
      (if m.customer_name = c ∧ m.equipment_type = e then signedQty m else 0) +
        specSignedSum c e t := by
  unfold specSignedSum
  rw [List.filter_cons]
  by_cases h : m.customer_name = c ∧ m.equipment_type = e
  · have hb : (m.customer_name == c && m.equipment_type == e) = true := by
      simp [h.1, h.2]
    rw [if_pos hb, if_pos h, List.map_cons, List.sum_cons]
  · have hb : (m.customer_name == c && m.equipment_type == e) = false := by
      cases hbv : (m.customer_name == c && m.equipment_type == e) with
      | false => rfl
      | true =>
        exfalso
        simp at hbv
        exact h hbv
    rw [if_neg (by simp [hb]), if_neg h, zero_add]

lemma stepRow_current_balance (m : Movement) (s : DBState) :
    (stepRow m s).current_balance =
      balanceOf m.customer_name m.equipment_type s + signedQty m := by
  unfold stepRow balanceOf signedQty
  cases hf : findBalance m.customer_name m.equipment_type s.balances with
  | none => by_cases hd : m.direction = Direction.IN <;> simp [hd, newBalanceRow]
  | some b0 =>
    by_cases hd : m.direction = Direction.IN <;> simp only [hd, if_pos, if_neg, Option.getD_some,
      Option.map_some', reduceIte] <;> omega

lemma balanceOf_applyOne (now : Nat) (s : DBState) (m : Movement) (c e : String) :
    balanceOf c e (applyOne now s m) =
      balanceOf c e s +
        (if m.customer_name = c ∧ m.equipment_type = e then signedQty m else 0) := by
  obtain ⟨A, hA⟩ := applyOne_eq now s m
  rw [hA]
  obtain ⟨hc, he⟩ := stepRow_key m s
  by_cases hk : m.customer_name = c ∧ m.equipment_type = e
  · obtain ⟨rfl, rfl⟩ := hk
    rw [if_pos ⟨rfl, rfl⟩]
    have hfind : findBalance m.customer_name m.equipment_type
        (putBalance (stepRow m s) s.balances) = some (stepRow m s) := by
      have hself := findBalance_putBalance_self (stepRow m s) s.balances
      rw [hc, he] at hself
      exact hself
    have hval : balanceOf m.customer_name m.equipment_type
        ({ balances := putBalance (stepRow m s) s.balances, alerts := A } : DBState) =
          (stepRow m s).current_balance := by
      unfold balanceOf
      rw [hfind]
      rfl
    rw [hval, stepRow_current_balance]
  · rw [if_neg hk, add_zero]
    have hkey : balKey c e (stepRow m s) = false := by
      cases hbv : balKey c e (stepRow m s) with
      | false => rfl
      | true =>
        exfalso
        rw [balKey_eq_iff] at hbv
        rw [hc] at hbv
        rw [he] at hbv
        exact hk ⟨hbv.1, hbv.2⟩
    unfold balanceOf
    rw [findBalance_putBalance_other (stepRow m s) s.balances c e hkey]

lemma balanceOf_applyMovements (now : Nat) (ms : List Movement) (s : DBState)
    (c e : String) :
    balanceOf c e (applyMovements now ms s) = balanceOf c e s + specSignedSum c e ms := by
  induction ms generalizing s with
  | nil => simp [applyMovements, specSignedSum]
  | cons m t ih =>
    unfold applyMovements
    rw [List.foldl_cons]
    have hrec := ih (applyOne now s m)
    unfold applyMovements at hrec
    rw [hrec, balanceOf_applyOne, specSignedSum_cons]
    omega

/-! ### Supporting lemmas: the threshold endpoint -/

lemma updateThreshold_of_missing (c e : String) (t : Int) (s : DBState)
    (hf : findBalance c e s.balances = none) :
    updateThreshold c e t s = Except.error ServiceError.notFoundError := by
  unfold updateThreshold
  rw [hf]

lemma updateThreshold_of_found (c e : String) (t : Int) (s : DBState) (b : CustomerBalance)
    (hf : findBalance c e s.balances = some b) :
    updateThreshold c e t s =
      Except.ok
        { balances :=
            putBalance { b with threshold := t, status := specStatus b.current_balance t }
              s.balances
          alerts := s.alerts } := by
  unfold updateThreshold
  rw [hf]
  rfl

/-! ### Concrete inputs used by the scenario theorems and witnesses -/

/-- An `out` movement of quantity 5 for a pair with no prior movements. -/
def mOut5 : Movement :=
  { movement_id := "mov-1"
    customer_name := "CustomerZ"
    equipment_type := "pallet"
    quantity := 5
    direction := Direction.OUT
    timestamp := 1
    driver_name := none
    confidence_score := 1
    notes := none
    verified := true }

/-- A movement carrying a non-positive quantity (-5): the schema field
`quantity: int` of `EquipmentMovement` in `schemas.py` carries no positivity
constraint, so such a movement reaches the service unrejected. -/
def mNeg : Movement :=
  { movement_id := "mov-2"
    customer_name := "CustomerQ"
    equipment_type := "cage"
    quantity := -5
    direction := Direction.IN
    timestamp := 2
    driver_name := none
    confidence_score := 1
    notes := none
    verified := false }

/-- Balance 50 against threshold 30 (the spec's Scenario B pair). -/
def balY : CustomerBalance :=
  { customer_name := "CustomerY"
    equipment_type := "cage"
    current_balance := 50
    threshold := 30
    last_movement := 0
    status := "over_threshold" }

/-- Balance 22 against threshold 20 (the spec's Scenario A pair). -/
def balX : CustomerBalance :=
  { customer_name := "CustomerX"
    equipment_type := "cage"
    current_balance := 22
    threshold := 20
    last_movement := 0
    status := "over_threshold" }

/-- A representative exception text for a failed AI call. -/
def failureText : String := "Connection error."

/-! ### Claim theorems -/

/-- C1: for every (customer_name, equipment_type) pair, after any sequence of
`update_customer_balance` calls starting from an empty database, the stored
`current_balance` equals the signed sum of all applied movement quantities
for that pair, counting +quantity for direction `in` and -quantity for
direction `out`. -/
theorem applied_balance_eq_signed_sum (now : Nat) (ms : List Movement) (c e : String) :
    balanceOf c e (applyMovements now ms emptyDB) = specSignedSum c e ms := by
  rw [balanceOf_applyMovements, balanceOf_empty, zero_add]

/-- C4 (counterexample): `update_customer_balance` accepts a movement whose
quantity is ≤ 0 and applies it arithmetically instead of failing with a
validation error — here quantity -5 with direction `in` is applied to a
fresh pair, succeeding with balance -5, status `negative` and an alert. -/
theorem nonpositive_quantity_is_applied :
    mNeg.quantity ≤ 0 ∧
      updateCustomerBalance mNeg 3 emptyDB =
        Except.ok
          { balances := [{ customer_name := "CustomerQ", equipment_type := "cage",
                           current_balance := -5, threshold := 20, last_movement := 2,
                           status := "negative" }],
            alerts := [{ customer_name := "CustomerQ", equipment_type := "cage",
                         current_balance := -5, threshold := 20, excess := 0,
                         priority := "medium", created_at := 3, resolved := false }] } := by
  constructor
  · decide
  · simp [updateCustomerBalance, emptyDB, findBalance, newBalanceRow, mNeg,
      DEFAULT_THRESHOLD, putBalance, createAlert, newAlert, calculatePriority_eq]

/-- C4 (amended): `update_customer_balance` never fails at all — it raises
neither a validation error (quantity and direction are not validated by the
service or the schema's `quantity: int` field; a movement with quantity ≤ 0
is applied arithmetically) nor a not-found error (the balance row is lazily
created when absent); every call returns a state. -/
theorem update_balance_never_fails (m : Movement) (now : Nat) (s : DBState) :
    ∃ s1, updateCustomerBalance m now s = Except.ok s1 := by
  obtain ⟨A, hA⟩ := updateCustomerBalance_ok m now s
  exact ⟨_, hA⟩

/-- C5 (counterexample): on a failed AI extraction the upload path stores
nothing at all — `extract_equipment_from_image` returns
`success=False, movements=[]`, `upload_photo` skips the storing branch, and
the ledger stays empty: no placeholder movement is written. -/
theorem failed_extraction_stores_no_movement :
    (extractEquipmentFromImage (ExtractOutcome.exn failureText)).success = false ∧
      (extractEquipmentFromImage (ExtractOutcome.exn failureText)).movements = [] ∧
      uploadPhoto (extractEquipmentFromImage (ExtractOutcome.exn failureText)) 5 emptyUpload =
        emptyUpload ∧
      (uploadPhoto (extractEquipmentFromImage (ExtractOutcome.exn failureText)) 5
        emptyUpload).ledger = [] :=
  ⟨rfl, rfl, rfl, rfl⟩

/-- C5 (amended): for every photo-upload whose AI extraction fails, no
exception propagates to the caller — the failure is swallowed into
`ExtractionResult(success=False, movements=[], error=message)` — and
`upload_photo` then performs no write at all: the ledger receives no
movement (in particular no low-confidence placeholder) and the state is
returned unchanged. -/
theorem extraction_failure_degrades_silently (msg : String) (now : Nat) (s : UploadState) :
    (extractEquipmentFromImage (ExtractOutcome.exn msg)).success = false ∧
      (extractEquipmentFromImage (ExtractOutcome.exn msg)).movements = [] ∧
      (extractEquipmentFromImage (ExtractOutcome.exn msg)).error =
        some (friendlyMessage msg) ∧
      uploadPhoto (extractEquipmentFromImage (ExtractOutcome.exn msg)) now s = s :=
  ⟨rfl, rfl, rfl, rfl⟩

/-- C6: applying an `out` movement of quantity 5 for a pair with no prior
movements lazily creates the balance row seeded at 0 with the default
threshold (20), yields current_balance = -5 and status `negative`, and still
creates an alert whose excess = max(0, -5 - threshold) = 0. -/
theorem out_movement_on_empty_pair :
    updateCustomerBalance mOut5 7 emptyDB =
      Except.ok
        { balances := [{ customer_name := "CustomerZ", equipment_type := "pallet",
                         current_balance := -5, threshold := 20, last_movement := 1,
                         status := "negative" }],
          alerts := [{ customer_name := "CustomerZ", equipment_type := "pallet",
                       current_balance := -5, threshold := 20, excess := 0,
                       priority := "medium", created_at := 7, resolved := false }] } := by
  simp [updateCustomerBalance, emptyDB, findBalance, newBalanceRow, mOut5,
    DEFAULT_THRESHOLD, putBalance, createAlert, newAlert, calculatePriority_eq]

/-- C7 (counterexample): the claim's primary condition — priority is `high`
if excess ≥ threshold × 1.5 and `medium` otherwise — is false on the code
and is not equivalent to `current_balance > threshold × 1.5`: at balance 50
against threshold 30 the code computes `high` although the excess 20 is
below 45 = threshold × 1.5 (the claimed condition would demand `medium`). -/
theorem priority_excess_formula_false :
    calculatePriority balY = "high" ∧
      ((balY.current_balance : ℚ) - (balY.threshold : ℚ) <
        (balY.threshold : ℚ) * HIGH_PRIORITY_MULTIPLIER) := by
  constructor
  · rw [calculatePriority_eq]
    norm_num [balY]
  · norm_num [balY, HIGH_PRIORITY_MULTIPLIER]

/-- C7 (amended): the computed priority is `high` exactly when
current_balance > threshold × 1.5 (the excess plays no role in the
condition), and `medium` otherwise; in particular balance 50 against
threshold 30 yields `high` (50 > 45) and balance 22 against threshold 20
yields `medium` (22 ≤ 30). -/
theorem priority_iff_threshold_exceeded (b : CustomerBalance) :
    (calculatePriority b = "high" ↔
        (b.threshold : ℚ) * HIGH_PRIORITY_MULTIPLIER < (b.current_balance : ℚ)) ∧
      (calculatePriority b = "high" ↔ 3 * b.threshold < 2 * b.current_balance) ∧
      (calculatePriority b = "high" ∨ calculatePriority b = "medium") ∧
      calculatePriority balY = "high" ∧
      calculatePriority balX = "medium" := by
  have hchar : ∀ b' : CustomerBalance,
      calculatePriority b' = "high" ↔ 3 * b'.threshold < 2 * b'.current_balance := by
    intro b'
    rw [calculatePriority_eq]
    constructor
    · intro h
      by_contra hc
      rw [if_neg hc] at h
      exact absurd h (by decide)
    · intro h
      rw [if_pos h]
  refine ⟨?_, hchar b, ?_, ?_, ?_⟩
  · rw [hchar b]
    exact (priority_high_iff b).symm
  · rw [calculatePriority_eq]
    split_ifs <;> simp
  · rw [hchar balY]
    decide
  · rw [calculatePriority_eq]
    norm_num [balX]

/-- An open (unresolved) alert for the (CustomerX, cage) pair, recorded when
its threshold was still 20. -/
def aXAlert : Alert :=
  { customer_name := "CustomerX"
    equipment_type := "cage"
    current_balance := 21
    threshold := 20
    excess := 1
    priority := "medium"
    created_at := 4
    resolved := false }

/-- A database holding the (CustomerX, cage) balance and its open alert. -/
def sX : DBState := { balances := [balX], alerts := [aXAlert] }

/-- The (CustomerX, cage) balance after its threshold is raised to 25. -/
def balX25 : CustomerBalance :=
  { customer_name := "CustomerX"
    equipment_type := "cage"
    current_balance := 22
    threshold := 25
    last_movement := 0
    status := "normal" }

/-- The database `sX` after `update_threshold` raises the threshold to 25. -/
def sX25 : DBState := { balances := [balX25], alerts := [aXAlert] }

/-- The (CustomerX, cage) balance after its threshold is lowered to 10. -/
def balTh10 : CustomerBalance :=
  { customer_name := "CustomerX"
    equipment_type := "cage"
    current_balance := 22
    threshold := 10
    last_movement := 0
    status := "over_threshold" }

lemma alertInv_singleton (a : Alert) : alertInv [a] := by
  intro c e
  rw [List.countP_cons]
  split_ifs <;> simp [List.countP_nil]

/-- C2: whenever a balance is written by `update_customer_balance` or by
`update_threshold`, its stored `status` is exactly the pure function of
(current_balance, threshold): `over_threshold` if current_balance >
threshold, else `negative` if current_balance < 0, else `normal`. -/
theorem written_status_matches_formula :
    (∀ (m : Movement) (now : Nat) (s s1 : DBState),
        updateCustomerBalance m now s = Except.ok s1 →
        ∀ b, findBalance m.customer_name m.equipment_type s1.balances = some b →
          b.status = specStatus b.current_balance b.threshold) ∧
      (∀ (c e : String) (t : Int) (s s1 : DBState),
        updateThreshold c e t s = Except.ok s1 →
        ∀ b, findBalance c e s1.balances = some b →
          b.status = specStatus b.current_balance b.threshold) := by
  constructor
  · intro m now s s1 h b hb
    obtain ⟨A, hA⟩ := updateCustomerBalance_ok m now s
    rw [h] at hA
    injection hA with hA
    subst hA
    obtain ⟨hc, he⟩ := stepRow_key m s
    have hself := findBalance_putBalance_self (stepRow m s) s.balances
    rw [hc, he] at hself
    dsimp only at hb
    rw [hself] at hb
    injection hb with hb
    subst hb
    exact stepRow_status m s
  · intro c e t s s1 h b hb
    cases hf : findBalance c e s.balances with
    | none =>
      rw [updateThreshold_of_missing c e t s hf] at h
      exact Except.noConfusion h
    | some b0 =>
      rw [updateThreshold_of_found c e t s b0 hf] at h
      injection h with h
      subst h
      have hkey := List.find?_some hf
      rw [balKey_eq_iff] at hkey
      have hself2 : findBalance c e
          (putBalance { b0 with threshold := t, status := specStatus b0.current_balance t }
            s.balances) =
          some { b0 with threshold := t, status := specStatus b0.current_balance t } := by
        rw [← hkey.1, ← hkey.2]
        exact findBalance_putBalance_self
          { b0 with threshold := t, status := specStatus b0.current_balance t } s.balances
      dsimp only at hb
      rw [hself2] at hb
      injection hb with hb
      subst hb
      rfl

/-- C2 (witness): raising the threshold of the (CustomerX, cage) balance to
25 stores status `normal`, which matches the formula at (22, 25). -/
theorem written_status_witness :
    balX25.status = specStatus balX25.current_balance balX25.threshold :=
  written_status_matches_formula.2 "CustomerX" "cage" 25 sX sX25
    (by
      rw [updateThreshold_of_found "CustomerX" "cage" 25 sX balX (by decide)]
      exact congrArg Except.ok (by decide))
    balX25 (by decide)

/-- C3: at most one unresolved alert row exists per (customer_name,
equipment_type) at any time — `upsert_alert` preserves the invariant, leaves
every resolved alert untouched in the table (it never sets one back to
unresolved), creates a fresh alert with resolved = false when no unresolved
alert exists for the pair, and otherwise rewrites the existing unresolved
alert in place (same row count, `created_at` and `resolved` unchanged). -/
theorem upsert_alert_upholds_unresolved_invariant (b : CustomerBalance) (now : Nat)
    (l : List Alert) (h : alertInv l) :
    alertInv (createAlert b now l) ∧
      (∀ a, a ∈ l → a.resolved = true → a ∈ createAlert b now l) ∧
      (l.find? (unresolvedFor b.customer_name b.equipment_type) = none →
        createAlert b now l = l ++ [newAlert b now] ∧ (newAlert b now).resolved = false) ∧
      (∀ a, l.find? (unresolvedFor b.customer_name b.equipment_type) = some a →
        (createAlert b now l).length = l.length ∧
        (createAlert b now l).find? (unresolvedFor b.customer_name b.equipment_type) =
          some (updateExistingAlert b a) ∧
        (updateExistingAlert b a).created_at = a.created_at ∧
        (updateExistingAlert b a).resolved = a.resolved) := by
  refine ⟨?_, ?_, ?_, ?_⟩
  · intro c e
    by_cases hk : c = b.customer_name ∧ e = b.equipment_type
    · obtain ⟨rfl, rfl⟩ := hk
      rw [countP_createAlert_self]
      exact Nat.max_le.mpr ⟨Nat.le_refl 1, h b.customer_name b.equipment_type⟩
    · rw [countP_createAlert_other b now l c e hk]
      exact h c e
  · intro a ha hr
    exact resolved_mem_createAlert b now l a ha hr
  · intro hnone
    refine ⟨?_, rfl⟩
    apply createAlert_of_not_found
    intro a ha
    exact List.find?_eq_none.mp hnone a ha
  · intro a hsome
    obtain ⟨h1, h2⟩ := createAlert_of_found b now l a hsome
    exact ⟨h2, h1, rfl, rfl⟩

/-- C3 (witness): instantiation at the breached (CustomerX, cage) balance
over a table holding exactly its open alert. -/
theorem upsert_alert_invariant_witness :
    alertInv (createAlert balX 9 [aXAlert]) ∧
      (∀ a, a ∈ [aXAlert] → a.resolved = true → a ∈ createAlert balX 9 [aXAlert]) ∧
      ([aXAlert].find? (unresolvedFor balX.customer_name balX.equipment_type) = none →
        createAlert balX 9 [aXAlert] = [aXAlert] ++ [newAlert balX 9] ∧
          (newAlert balX 9).resolved = false) ∧
      (∀ a, [aXAlert].find? (unresolvedFor balX.customer_name balX.equipment_type) =
          some a →
        (createAlert balX 9 [aXAlert]).length = [aXAlert].length ∧
        (createAlert balX 9 [aXAlert]).find?
            (unresolvedFor balX.customer_name balX.equipment_type) =
          some (updateExistingAlert balX a) ∧
        (updateExistingAlert balX a).created_at = a.created_at ∧
        (updateExistingAlert balX a).resolved = a.resolved) :=
  upsert_alert_upholds_unresolved_invariant balX 9 [aXAlert] (alertInv_singleton aXAlert)

/-- C8: `update_threshold` fails with the not-found error when no balance
row exists for the pair; otherwise it rewrites only the found row — new
threshold and recomputed status — and leaves every alert row and every
other balance row unchanged. -/
theorem set_threshold_updates_only_balance (c e : String) (t : Int) (s : DBState) :
    (findBalance c e s.balances = none →
        updateThreshold c e t s = Except.error ServiceError.notFoundError) ∧
      (∀ b s1, findBalance c e s.balances = some b →
        updateThreshold c e t s = Except.ok s1 →
        s1.alerts = s.alerts ∧
          findBalance c e s1.balances =
            some { b with threshold := t, status := specStatus b.current_balance t } ∧
          (∀ c2 e2, ¬(c2 = c ∧ e2 = e) →
            findBalance c2 e2 s1.balances = findBalance c2 e2 s.balances)) := by
  constructor
  · exact updateThreshold_of_missing c e t s
  · intro b s1 hf h
    rw [updateThreshold_of_found c e t s b hf] at h
    injection h with h
    subst h
    have hkey := List.find?_some hf
    rw [balKey_eq_iff] at hkey
    refine ⟨rfl, ?_, ?_⟩
    · dsimp only
      rw [← hkey.1, ← hkey.2]
      exact findBalance_putBalance_self
        { b with threshold := t, status := specStatus b.current_balance t } s.balances
    · intro c2 e2 hne
      apply findBalance_putBalance_other
      cases hbv : balKey c2 e2
          { b with threshold := t, status := specStatus b.current_balance t } with
      | false => rfl
      | true =>
        exfalso
        rw [balKey_eq_iff] at hbv
        exact hne ⟨hbv.1.symm.trans hkey.1, hbv.2.symm.trans hkey.2⟩

/-- C8 (witness): a missing pair yields the not-found error, and raising the
(CustomerX, cage) threshold from 20 to 25 flips the status to `normal` while
the open alert table stays exactly as it was. -/
theorem set_threshold_witness :
    updateThreshold "Nobody" "cage" 25 sX = Except.error ServiceError.notFoundError ∧
      (sX25.alerts = sX.alerts ∧
        findBalance "CustomerX" "cage" sX25.balances =
          some { balX with threshold := 25, status := specStatus balX.current_balance 25 } ∧
        (∀ c2 e2, ¬(c2 = "CustomerX" ∧ e2 = "cage") →
          findBalance c2 e2 sX25.balances = findBalance c2 e2 sX.balances)) :=
  ⟨(set_threshold_updates_only_balance "Nobody" "cage" 25 sX).1 (by decide),
    (set_threshold_updates_only_balance "CustomerX" "cage" 25 sX).2 balX sX25 (by decide)
      (by
        rw [updateThreshold_of_found "CustomerX" "cage" 25 sX balX (by decide)]
        exact congrArg Except.ok (by decide))⟩

/-- C9: `upsert_alert` is idempotent — for a balance in a breached state,
over a table with at most one unresolved alert for its pair, a second call
with the balance unchanged (at any later clock tick) changes nothing, and
exactly one unresolved alert row for the pair remains after the first
call. -/
theorem upsert_alert_idempotent (b : CustomerBalance) (now now2 : Nat) (l : List Alert)
    (hcount : l.countP (unresolvedFor b.customer_name b.equipment_type) ≤ 1)
    (hb : breached b) :
    createAlert b now2 (createAlert b now l) = createAlert b now l ∧
      (createAlert b now l).countP (unresolvedFor b.customer_name b.equipment_type) = 1 := by
  refine ⟨createAlert_idem b now now2 l, ?_⟩
  rw [countP_createAlert_self]
  omega

/-- C9 (witness): instantiation at the breached (CustomerX, cage) balance
over its single open alert. -/
theorem upsert_alert_idempotent_witness :
    createAlert balX 9 (createAlert balX 4 [aXAlert]) = createAlert balX 4 [aXAlert] ∧
      (createAlert balX 4 [aXAlert]).countP
          (unresolvedFor balX.customer_name balX.equipment_type) = 1 :=
  upsert_alert_idempotent balX 4 9 [aXAlert] (by decide) (Or.inl (by decide))

/-- C10: when `upsert_alert` updates an existing unresolved alert, only
current_balance, excess and priority are rewritten — the alert's stored
threshold (and created_at) keep their creation-time values, so after the
balance's threshold changes, the open alert carries an excess computed from
the new threshold next to a threshold field recording the old one. -/
theorem upsert_keeps_original_threshold (b : CustomerBalance) (now : Nat) (l : List Alert)
    (a : Alert) (h : l.find? (unresolvedFor b.customer_name b.equipment_type) = some a) :
    (createAlert b now l).find? (unresolvedFor b.customer_name b.equipment_type) =
        some (updateExistingAlert b a) ∧
      (updateExistingAlert b a).threshold = a.threshold ∧
      (updateExistingAlert b a).created_at = a.created_at ∧
      (updateExistingAlert b a).current_balance = b.current_balance ∧
      (updateExistingAlert b a).excess = max 0 (b.current_balance - b.threshold) ∧
      (updateExistingAlert b a).priority = calculatePriority b :=
  ⟨(createAlert_of_found b now l a h).1, rfl, rfl, rfl, rfl, rfl⟩

/-- C10 (witness): the (CustomerX, cage) balance whose threshold was lowered
to 10 updates the open alert created under threshold 20 — the rewritten
excess uses 10 while the alert's threshold field still records 20. -/
theorem upsert_keeps_original_threshold_witness :
    (createAlert balTh10 9 [aXAlert]).find?
        (unresolvedFor balTh10.customer_name balTh10.equipment_type) =
      some (updateExistingAlert balTh10 aXAlert) ∧
      (updateExistingAlert balTh10 aXAlert).threshold = aXAlert.threshold ∧
      (updateExistingAlert balTh10 aXAlert).created_at = aXAlert.created_at ∧
      (updateExistingAlert balTh10 aXAlert).current_balance = balTh10.current_balance ∧
      (updateExistingAlert balTh10 aXAlert).excess =
        max 0 (balTh10.current_balance - balTh10.threshold) ∧
      (updateExistingAlert balTh10 aXAlert).priority = calculatePriority balTh10 :=
  upsert_keeps_original_threshold balTh10 9 [aXAlert] aXAlert (by decide)

end EquipmentTracker
